import Mathlib

/-!
Shallow embedding of the S25FL064L SPI-flash driver (S25FL064L.c /
S25FL064L_Defs.h) for checking the natural-language specification.

The hardware abstraction of the driver is a set of injected function
pointers: `p_CS` (chip select), `p_RW` (synchronous exchange), `p_Reset`
and the optional `p_Busy` callback.  The embedding models that transport
as a `Bus` value: the current chip-select level, the ordered list of bus
events the driver has produced so far, and an oracle queue of transport
responses (one entry per `p_RW` call; an exhausted queue answers with
success and all-zero receive bytes, i.e. an idle, non-busy chip).  The
device structure `s25fl064_t`'s data fields are the `Dev` record; its
function-pointer fields are represented by the `Bus` primitives and are
assumed non-null (valid handle).

Machine integers are modelled as `Nat` with explicit masking where the C
code masks; `uint32_t` address arithmetic wraps modulo 2^32 at the one
place the code increments an address.  The unbounded busy-poll loop of
`S25FL064L_WaitBusy` takes an explicit fuel: every terminating run of the
C loop is a run of the model for some fuel, and fuel exhaustion returns
the sentinel `S25FL064_POLL_LIMIT`, distinct from every driver code.
-/

/-! ### Constants from S25FL064L.c and S25FL064L_Defs.h -/

def S25FL064L_CMD_RSFDP : Nat := 0x5A
def S25FL064L_CMD_DPD : Nat := 0xB9
def S25FL064L_CMD_RES : Nat := 0xAB
def S25FL064L_CMD_RDID : Nat := 0x9F
def S25FL064L_CMD_CE : Nat := 0x60
def S25FL064L_CMD_RUID : Nat := 0x4B
def S25FL064L_CMD_CLSR : Nat := 0x30
def S25FL064L_CMD_SE : Nat := 0x21
def S25FL064L_CMD_RDCR2 : Nat := 0x15
def S25FL064L_CMD_4READ : Nat := 0x13
def S25FL064L_CMD_4PP : Nat := 0x12
def S25FL064L_CMD_WREN : Nat := 0x06
def S25FL064L_CMD_RDSR2 : Nat := 0x07
def S25FL064L_CMD_RDSR1 : Nat := 0x05

def S25FL064L_BIT_ADDR_LENGTH : Nat := 0x00
def S25FL064L_BIT_BUSY : Nat := 0x00
def S25FL064L_BIT_WEL : Nat := 0x01

def S25FL064L_MASK_PROG_ERROR : Nat := 1 <<< 0x00
def S25FL064L_MASK_ERASE_ERROR : Nat := 1 <<< 0x01

def S25FL064L_PAGE_SIZE : Nat := 256
def S25FL064L_SECTOR_COUNT : Nat := 2048
def S25FL064L_SECTOR_SIZE : Nat := 4096
def S25FL064L_DEVICE_ID : Nat := 0x6017

def S25FL064_NO_ERROR : Nat := 0x00
def S25FL064_INVALID_PARAM : Nat := 0x01
def S25FL064_NOT_INITIALIZED : Nat := 0x03
def S25FL064_WRITE_PROTECTED : Nat := 0x04

/-- Sentinel returned by the model when the busy-poll fuel runs out.  The C
loop is unbounded; every terminating C run corresponds to a fuel for which
this sentinel does not occur.  The value is distinct from every
`s25fl064_error_t` member. -/
def S25FL064_POLL_LIMIT : Nat := 0xFFFF

/-- Byte size of `flash_params_t`, defined in
`src/external/FileSystem/Cypress/SFDP.h`: one packed `sfdp_header_t`
(4-byte `Signature` union, `Minor`, `Major`, `NPH`, `Unused` — 8 bytes)
followed by two packed `sfdp_parameter_header`s (`ID_LSB`, `Minor`,
`Major`, `Length`, `ParameterTablePointer[3]`, `ID_MSB` — 8 bytes each).
`S25FL064L_ReadJEDEC` receives `sizeof(Params)` bytes into the
file-static `Params`; only that byte count matters to the driver. -/
def flashParamsSize : Nat := 8 + 8 + 8

/-! ### Bus and device state -/

/-- One oracle response for a `p_RW` exchange: the error code the transport
returns and the bytes it places in the receive buffer. -/
structure Resp where
  err : Nat
  rx : List Nat
deriving Repr, DecidableEq

/-- Observable bus events: chip-select edges, one `p_RW` exchange (the
transmitted bytes and the requested receive length), and the hardware
reset line. -/
inductive Event where
  | cs (sel : Bool)
  | rw (tx : List Nat) (rxLen : Nat)
  | reset
deriving Repr, DecidableEq

/-- Transport state: chip-select level, event history, oracle queue. -/
structure Bus where
  cs : Bool
  trace : List Event
  queue : List Resp
deriving Repr, DecidableEq

/-- Data fields of `s25fl064_t` (the function pointers are the `Bus`
primitives). -/
structure Dev where
  isInitialized : Bool
  isPowerDown : Bool
  isWriteProtect : Bool
  isShortAddress : Bool
  isQPI : Bool
  MID : Nat
  DID : Nat
  UID : List Nat
  BlockSize : Nat
  Blocks : Nat
  Impedance : Nat
deriving Repr, DecidableEq

/-- `p_Device->p_CS(b)`. -/
def doCS (bus : Bus) (b : Bool) : Bus :=
  { bus with cs := b, trace := bus.trace ++ [Event.cs b] }

/-- `p_Device->p_RW(tx, txLen, rx, rxLen)`: records the exchange and
consumes one oracle entry; an exhausted queue answers success with zero
bytes. -/
def doRW (bus : Bus) (tx : List Nat) (rxLen : Nat) : Nat × List Nat × Bus :=
  match bus.queue with
  | [] => (0, List.replicate rxLen 0,
      { bus with trace := bus.trace ++ [Event.rw tx rxLen] })
  | r :: q => (r.err, r.rx,
      { bus with trace := bus.trace ++ [Event.rw tx rxLen], queue := q })

/-! ### Driver operations (translated from S25FL064L.c) -/

/-- `S25FL064L_Command`: select, one exchange, deselect (the C code
deselects on both the error path and the success path before returning). -/
def S25FL064L_Command (bus : Bus) (tx : List Nat) (rxLen : Nat) :
    Nat × List Nat × Bus :=
  let r := doRW (doCS bus true) tx rxLen
  (r.1, r.2.1, doCS r.2.2 false)

/-- `S25FL064L_WaitBusy`: poll status register 1 until the busy bit
(bit 0 of `Rx_Buffer[1]`) clears.  The optional `p_Busy` callback has no
observable effect on the bus and is not modelled. -/
def S25FL064L_WaitBusy : Nat → Bus → Nat × Bus
  | 0, bus => (S25FL064_POLL_LIMIT, bus)
  | fuel + 1, bus =>
    match S25FL064L_Command bus [S25FL064L_CMD_RDSR1] 2 with
    | (e, rx, bus1) =>
      if e ≠ 0 then (e, bus1)
      else if (rx.getD 1 0) &&& (1 <<< S25FL064L_BIT_BUSY) ≠ 0 then
        S25FL064L_WaitBusy fuel bus1
      else (0, bus1)

/-- `S25FL064L_ReadID`: RDID, then `MID := Rx_Buffer[1]`,
`DID := Rx_Buffer[2] << 8 | Rx_Buffer[3]`. -/
def S25FL064L_ReadID (dev : Dev) (bus : Bus) : Nat × Dev × Bus :=
  match S25FL064L_Command bus [S25FL064L_CMD_RDID] 4 with
  | (e, rx, bus1) =>
    if e ≠ 0 then (e, dev, bus1)
    else (e, { dev with
        MID := rx.getD 1 0,
        DID := ((rx.getD 2 0) <<< 0x08) ||| (rx.getD 3 0) }, bus1)

/-- `S25FL064L_ReadUID`: RUID command with four dummy bytes, then an
8-byte receive into `p_Device->UID`, chip select held across both. -/
def S25FL064L_ReadUID (dev : Dev) (bus : Bus) : Nat × Dev × Bus :=
  match doRW (doCS bus true) [S25FL064L_CMD_RUID] 5 with
  | (e, _, bus1) =>
    if e ≠ 0 then (e, dev, doCS bus1 false)
    else
      match doRW bus1 [] 8 with
      | (e2, rx2, bus2) =>
        if e2 ≠ 0 then (e2, dev, doCS bus2 false)
        else (e2, { dev with UID := rx2 }, doCS bus2 false)

/-- `S25FL064L_ReadJEDEC`: RSFDP command frame, then receive the
`flash_params_t` block (into the file-static `Params`, so the handle is
untouched), chip select held across both. -/
def S25FL064L_ReadJEDEC (bus : Bus) : Nat × Bus :=
  match doRW (doCS bus true) [S25FL064L_CMD_RSFDP, 0, 0, 0, 0] 5 with
  | (e, _, bus1) =>
    if e ≠ 0 then (e, doCS bus1 false)
    else
      match doRW bus1 [] flashParamsSize with
      | (e2, _, bus2) =>
        if e2 ≠ 0 then (e2, doCS bus2 false)
        else (e2, doCS bus2 false)

/-- `S25FL064L_Reset`: pulse the reset line and clear `isInitialized`. -/
def S25FL064L_Reset (dev : Dev) (bus : Bus) : Nat × Dev × Bus :=
  (S25FL064_NO_ERROR, { dev with isInitialized := false },
    { bus with trace := bus.trace ++ [Event.reset] })

/-- `S25FL064L_EnterPowerDown`. -/
def S25FL064L_EnterPowerDown (dev : Dev) (bus : Bus) : Nat × Dev × Bus :=
  match S25FL064L_Command bus [S25FL064L_CMD_DPD] 0 with
  | (e, _, bus1) =>
    if e ≠ 0 then (e, dev, bus1)
    else (e, { dev with isPowerDown := true }, bus1)

/-- `S25FL064L_LeavePowerDown`: RES command, then busy-poll, then clear
the power-down flag. -/
def S25FL064L_LeavePowerDown (busyFuel : Nat) (dev : Dev) (bus : Bus) :
    Nat × Dev × Bus :=
  match S25FL064L_Command bus [S25FL064L_CMD_RES] 0 with
  | (e, _, bus1) =>
    if e ≠ 0 then (e, dev, bus1)
    else
      match S25FL064L_WaitBusy busyFuel bus1 with
      | (e2, bus2) =>
        if e2 ≠ 0 then (e2, dev, bus2)
        else (e2, { dev with isPowerDown := false }, bus2)

/-- `S25FL064L_Init`.  Faithful details: `isInitialized` is cleared at
entry; `ReadID || ReadUID || ReadJEDEC` is a C logical-or, so a failure
of any of the three yields the value 1; both arms of the address-length
test assign `isShortAddress = false` (as the source does); no comparison
against `S25FL064L_DEVICE_ID` is performed. -/
def S25FL064L_Init (busyFuel : Nat) (dev : Dev) (bus : Bus) :
    Nat × Dev × Bus :=
  match S25FL064L_LeavePowerDown busyFuel
      { dev with isInitialized := false } bus with
  | (e1, dev1, bus1) =>
    if e1 ≠ 0 then (e1, dev1, bus1)
    else
      match S25FL064L_Reset dev1 bus1 with
      | (e2, dev2, bus2) =>
        if e2 ≠ 0 then (e2, dev2, bus2)
        else
          match S25FL064L_ReadID dev2 bus2 with
          | (e3, dev3, bus3) =>
            if e3 ≠ 0 then (1, dev3, bus3)
            else
              match S25FL064L_ReadUID dev3 bus3 with
              | (e4, dev4, bus4) =>
                if e4 ≠ 0 then (1, dev4, bus4)
                else
                  match S25FL064L_ReadJEDEC bus4 with
                  | (e5, bus5) =>
                    if e5 ≠ 0 then (1, dev4, bus5)
                    else
                      match S25FL064L_Command bus5 [S25FL064L_CMD_RDCR2] 2 with
                      | (e6, rx6, bus6) =>
                        if e6 ≠ 0 then (e6, dev4, bus6)
                        else
                          let cr2 := rx6.getD 1 0
                          let dev5 :=
                            if cr2 &&& (1 <<< S25FL064L_BIT_ADDR_LENGTH) ≠ 0 then
                              { dev4 with isShortAddress := false }
                            else
                              { dev4 with isShortAddress := false }
                          (S25FL064_NO_ERROR,
                            { dev5 with
                              Impedance := (cr2 >>> 0x05) &&& 0x03,
                              isQPI := ((cr2 >>> 0x03) &&& 0x01) != 0,
                              BlockSize := S25FL064L_SECTOR_SIZE,
                              Blocks := S25FL064L_SECTOR_COUNT,
                              isInitialized := true,
                              isPowerDown := false,
                              isWriteProtect := false }, bus6)

/-- `S25FL064L_GetError`: read status register 2, extract
`(Rx_Buffer[1] & 0x60) >> 5` into the output, then issue CLSR.  The
output is `none` when the first exchange fails (the C code leaves
`*p_Error` unwritten there). -/
def S25FL064L_GetError (bus : Bus) : Nat × Option Nat × Bus :=
  match S25FL064L_Command bus [S25FL064L_CMD_RDSR2] 2 with
  | (e, rx, bus1) =>
    if e ≠ 0 then (e, none, bus1)
    else
      match S25FL064L_Command bus1 [S25FL064L_CMD_CLSR] 0 with
      | (e2, _, bus2) => (e2, some (((rx.getD 1 0) &&& 0x60) >>> 0x05), bus2)

/-- `S25FL064L_EraseSector`: WREN command, then the SE frame with the
4-byte big-endian address under one chip select, then busy-poll.  No
status-register read occurs between WREN and SE. -/
def S25FL064L_EraseSector (busyFuel : Nat) (dev : Dev) (bus : Bus)
    (address : Nat) : Nat × Bus :=
  match S25FL064L_Command bus [S25FL064L_CMD_WREN] 0 with
  | (e, _, bus1) =>
    if e ≠ 0 then (e, bus1)
    else
      match doRW (doCS bus1 true)
          [S25FL064L_CMD_SE,
           (address &&& 0xFF000000) >>> 0x18,
           (address &&& 0x00FF0000) >>> 0x10,
           (address &&& 0x0000FF00) >>> 0x08,
           (address &&& 0x000000FF) >>> 0x00] 0 with
      | (e2, _, bus2) =>
        if e2 ≠ 0 then (e2, doCS bus2 false)
        else S25FL064L_WaitBusy busyFuel (doCS bus2 false)

/-- `S25FL064L_EraseChip`: WREN command, CE command, busy-poll. -/
def S25FL064L_EraseChip (busyFuel : Nat) (dev : Dev) (bus : Bus) :
    Nat × Bus :=
  match S25FL064L_Command bus [S25FL064L_CMD_WREN] 0 with
  | (e, _, bus1) =>
    if e ≠ 0 then (e, bus1)
    else
      match S25FL064L_Command bus1 [S25FL064L_CMD_CE] 0 with
      | (e2, _, bus2) =>
        if e2 ≠ 0 then (e2, bus2)
        else S25FL064L_WaitBusy busyFuel bus2

/-- Loop body of `S25FL064L_Write` (the `do { ... } while(RemainingBytes
> 0)` loop).  `txBuf` is the local `Tx_Buffer[5]` array, carried across
iterations (its bytes 1..4 are whatever a previous step left there; the
first iteration sees the caller-supplied initial contents of the
uninitialized array).  `iterFuel` only bounds the recursion; the loop
runs at most `Length/256 + 1` times, so the caller's `length + 1` is
always sufficient.  Faithful details: the WREN command transmits 1 byte
but the status-read command transmits the whole 5-byte `Tx_Buffer`; the
two sub-transfers of a full page read from `p_Buffer_Temp` (offset
`bufOff`) while the partial-page transfer reads from `p_Buffer`
(offset 0) — exactly as the source does; `Error = p_RW(...) ||
p_RW(...)` collapses a transfer failure to the value 1. -/
def S25FL064L_WriteLoop :
    Nat → Nat → List Nat → List Nat → Nat → Nat → Nat → Bus → Nat × Bus
  | 0, _, _, _, _, _, _, bus => (S25FL064_POLL_LIMIT, bus)
  | iterFuel + 1, busyFuel, buf, txBuf, remaining, memAddr, bufOff, bus =>
    let txBuf1 := txBuf.set 0 S25FL064L_CMD_WREN
    match S25FL064L_Command bus (txBuf1.take 1) 0 with
    | (e1, _, bus1) =>
      if e1 ≠ 0 then (e1, bus1)
      else
        match S25FL064L_Command bus1 (txBuf1.set 0 S25FL064L_CMD_RDSR1) 2 with
        | (e2, rx2, bus2) =>
          if e2 ≠ 0 then (e2, bus2)
          else if (rx2.getD 1 0) &&& (1 <<< S25FL064L_BIT_WEL) = 0 then
            (S25FL064_WRITE_PROTECTED, bus2)
          else
            match doRW (doCS bus2 true) [S25FL064L_CMD_4PP,
                (memAddr &&& 0xFF000000) >>> 0x18,
                (memAddr &&& 0x00FF0000) >>> 0x10,
                (memAddr &&& 0x0000FF00) >>> 0x08,
                (memAddr &&& 0x000000FF) >>> 0x00] 0 with
            | (e3, _, bus3) =>
              if e3 ≠ 0 then (e3, doCS bus3 false)
              else if S25FL064L_PAGE_SIZE ≤ remaining then
                match
                  (match doRW bus3 ((buf.drop bufOff).take 255) 0 with
                   | (e4, _, bus4) =>
                     if e4 ≠ 0 then (1, bus4)
                     else
                       match doRW bus4 ((buf.drop (bufOff + 255)).take 1) 0 with
                       | (e5, _, bus5) =>
                         if e5 ≠ 0 then (1, bus5) else (0, bus5)) with
                | (eOr, busOr) =>
                  if eOr ≠ 0 then (eOr, doCS busOr false)
                  else
                    match S25FL064L_WaitBusy busyFuel (doCS busOr false) with
                    | (e6, bus6) =>
                      if e6 ≠ 0 then (e6, doCS bus6 false)
                      else if remaining - S25FL064L_PAGE_SIZE > 0 then
                        S25FL064L_WriteLoop iterFuel busyFuel buf
                          [S25FL064L_CMD_4PP,
                           (memAddr &&& 0xFF000000) >>> 0x18,
                           (memAddr &&& 0x00FF0000) >>> 0x10,
                           (memAddr &&& 0x0000FF00) >>> 0x08,
                           (memAddr &&& 0x000000FF) >>> 0x00]
                          (remaining - S25FL064L_PAGE_SIZE)
                          ((memAddr + S25FL064L_PAGE_SIZE) % 4294967296)
                          (bufOff + S25FL064L_PAGE_SIZE) (doCS bus6 false)
                      else (0, doCS bus6 false)
              else
                match doRW bus3 ((buf.drop 0).take remaining) 0 with
                | (e4, _, bus4) =>
                  if e4 ≠ 0 then (e4, doCS bus4 false)
                  else
                    match S25FL064L_WaitBusy busyFuel (doCS bus4 false) with
                    | (e6, bus6) =>
                      if e6 ≠ 0 then (e6, doCS bus6 false)
                      else (0, doCS bus6 false)

/-- `S25FL064L_Write`.  `txInit` is the initial (uninitialized in C)
contents of the local `Tx_Buffer[5]`; `pBuffer = none` models a null
buffer pointer.  The only parameter validation in the source is the null
check on `p_Device` and `p_Buffer`. -/
def S25FL064L_Write (busyFuel : Nat) (txInit : List Nat) (dev : Dev)
    (bus : Bus) (address : Nat) (pBuffer : Option (List Nat))
    (length : Nat) : Nat × Bus :=
  match pBuffer with
  | none => (S25FL064_INVALID_PARAM, bus)
  | some buf =>
    match S25FL064L_WriteLoop (length + 1) busyFuel buf txInit length
        address 0 bus with
    | (e, bus1) =>
      if e ≠ 0 then (e, bus1) else S25FL064L_WaitBusy busyFuel bus1

/-- Receive loop of `S25FL064L_Read`: stream chunks of at most 255 bytes
until `remaining` is exhausted.  `iterFuel` only bounds the recursion;
`length + 1` always suffices. -/
def S25FL064L_ReadLoop : Nat → Nat → Bus → Nat × List Nat × Bus
  | 0, _, bus => (S25FL064_POLL_LIMIT, [], bus)
  | iterFuel + 1, remaining, bus =>
    let tl := if remaining > 255 then 255 else remaining
    match doRW bus [] tl with
    | (e, rx, bus1) =>
      if e ≠ 0 then (e, [], doCS bus1 false)
      else if remaining - tl > 0 then
        match S25FL064L_ReadLoop iterFuel (remaining - tl) bus1 with
        | (e2, data, bus2) => (e2, rx ++ data, bus2)
      else (0, rx, bus1)

/-- `S25FL064L_Read`: one 4READ frame carrying the full start address,
then the chunked receive loop under the same chip select, then deselect.
The returned byte list is the content the transport placed in the
caller's buffer. -/
def S25FL064L_Read (dev : Dev) (bus : Bus) (start : Nat)
    (pBuffer : Option Unit) (length : Nat) : Nat × List Nat × Bus :=
  match pBuffer with
  | none => (S25FL064_INVALID_PARAM, [], bus)
  | some _ =>
    match doRW (doCS bus true)
        [S25FL064L_CMD_4READ,
         (start &&& 0xFF000000) >>> 0x18,
         (start &&& 0x00FF0000) >>> 0x10,
         (start &&& 0x0000FF00) >>> 0x08,
         (start &&& 0x000000FF) >>> 0x00] 0 with
    | (e, _, bus1) =>
      if e ≠ 0 then (e, [], doCS bus1 false)
      else
        match S25FL064L_ReadLoop (length + 1) length bus1 with
        | (e2, data, bus2) =>
          if e2 ≠ 0 then (e2, data, bus2)
          else (e2, data, doCS bus2 false)

/-! ### Trace analysis -/

/-- Sizes of the receive chunks `S25FL064L_Read` uses for `n` remaining
bytes: 255-byte chunks followed by the residue (the fuel argument mirrors
the loop bound; `chunkSizes` applies it with enough fuel). -/
def chunkSizesAux : Nat → Nat → List Nat
  | 0, n => [n]
  | fuel + 1, n => if n > 255 then 255 :: chunkSizesAux fuel (n - 255) else [n]

/-- Chunk sizes used to stream an `n`-byte read. -/
def chunkSizes (n : Nat) : List Nat := chunkSizesAux n n

/-- Interpret a bus trace as the sequence of page-program operations it
performs: a chip-select assertion immediately followed by a 5-byte 4PP
frame opens a program operation at the decoded big-endian address; the
transmitted bytes of subsequent exchanges up to the chip-select release
are the programmed data. -/
def progWritesAux : List Event → Option (Nat × List Nat) → List (Nat × List Nat)
  | [], none => []
  | [], some p => [p]
  | Event.cs true :: Event.rw (0x12 :: a3 :: a2 :: a1 :: a0 :: []) 0 :: rest, none =>
      progWritesAux rest
        (some ((a3 <<< 0x18) ||| (a2 <<< 0x10) ||| (a1 <<< 0x08) ||| a0, []))
  | Event.cs false :: rest, some p => p :: progWritesAux rest none
  | Event.rw tx _ :: rest, some (a, d) => progWritesAux rest (some (a, d ++ tx))
  | _ :: rest, acc => progWritesAux rest acc

/-- Page-program operations (address, data) contained in a trace. -/
def progWrites (tr : List Event) : List (Nat × List Nat) := progWritesAux tr none

/-! ### Concrete fixtures for counterexamples and witnesses -/

/-- Handle fixture with all flags clear and zeroed identification. -/
def dev0 : Dev := ⟨false, false, false, false, false, 0, 0, [], 0, 0, 0⟩

/-- Bus fixture with an empty oracle: every exchange succeeds and receives
zero bytes (idle, writeable-latch-clear, non-busy chip). -/
def bus0 : Bus := ⟨false, [], []⟩

/-- Initial contents for the local `Tx_Buffer[5]` of `S25FL064L_Write`. -/
def five0 : List Nat := [0, 0, 0, 0, 0]

/-- Oracle response of a chip whose status register 1 reads 0x02: write
enable latch set, not busy. -/
def welResp : Resp := ⟨0, [0, 2]⟩

/-- Bus whose chip always answers success with status 0x02. -/
def busOKW : Bus := ⟨false, [], List.replicate 20 welResp⟩

/-- The 257-byte buffer used for the write-chunking counterexample: first
byte 10, byte 256 is 77. -/
def buf257 : List Nat := 10 :: (List.replicate 255 0 ++ [77])

/-- Trace of the single `Write` call over all 257 bytes. -/
def writeTrace257 : List Event :=
  (S25FL064L_Write 5 five0 dev0 busOKW 0 (some buf257) 257).2.trace

/-- Trace of the first page-aligned `Write` call (bytes 0..255). -/
def writeTraceFirstPage : List Event :=
  (S25FL064L_Write 5 five0 dev0 busOKW 0 (some (buf257.take 256)) 256).2.trace

/-- Trace of the second page-aligned `Write` call (byte 256). -/
def writeTraceResidue : List Event :=
  (S25FL064L_Write 5 five0 dev0 busOKW 256 (some (buf257.drop 256)) 1).2.trace

/-- Oracle for a full successful `S25FL064L_Init` run: leave power-down,
busy poll, RDID answer, RUID dummies, 8 UID bytes, RSFDP dummies,
24 descriptor bytes, RDCR2 answer. -/
def initQueue (idrx : List Nat) (cr2 : Nat) : List Resp :=
  [⟨0, []⟩, ⟨0, [0, 0]⟩, ⟨0, idrx⟩, ⟨0, [0, 0, 0, 0, 0]⟩,
   ⟨0, List.replicate 8 0xAA⟩, ⟨0, [0, 0, 0, 0, 0]⟩,
   ⟨0, List.replicate 24 0⟩, ⟨0, [0, cr2]⟩]

/-- Successful initialization against a chip whose configuration register
2 reads 0x00 (address-length bit clear) and that reports the expected
device identity. -/
def busInitShort : Bus := ⟨false, [], initQueue [0, 1, 0x60, 0x17] 0⟩

/-- Successful initialization against a chip reporting device ID 0x0000
instead of 0x6017. -/
def busInitBadId : Bus := ⟨false, [], initQueue [0, 1, 0, 0] 0⟩

/-- Initialization whose final configuration-register read fails with a
transport error after identification already succeeded. -/
def busInitFail : Bus :=
  ⟨false, [], (initQueue [0, 1, 0x60, 0x17] 0).take 7 ++ [⟨1, []⟩]⟩

/-! ### C1 — page chunking of Write -/

set_option maxRecDepth 100000 in
/-- Claim C1 (code_bug evaluation): writing 257 bytes in one call does
not program the same bytes as two page-aligned calls split at the page
boundary.  With `buf257` (byte 0 is 10, byte 256 is 77), the single call
programs two pages at addresses 0 and 256 — but the second page receives
byte 10, the start of the whole buffer, because the partial-page branch
of `S25FL064L_Write` transmits from `p_Buffer` instead of
`p_Buffer_Temp`.  The two split calls program byte 77 at address 256. -/
theorem write_chunking_not_transparent :
    (progWrites writeTrace257).map Prod.fst = [0, 256] ∧
    progWrites writeTrace257 =
      [(0, buf257.take 256), (256, [10])] ∧
    progWrites writeTraceFirstPage = [(0, buf257.take 256)] ∧
    progWrites writeTraceResidue = [(256, [77])] ∧
    buf257.getD 256 0 = 77 ∧ (10 : Nat) ≠ 77 := by
  refine ⟨by decide, by decide, by decide, by decide, by decide, by decide⟩

/-! ### C2 — write enable before program/erase -/

/-- Claim C2 (counterexample): `S25FL064L_EraseSector` issues the sector
erase command and succeeds even though the write-enable latch was never
observed set — the chip here answers every status read with 0x00 (WEL
clear), yet the trace shows WREN directly followed by the SE frame with
no status read in between, and the result is `NO_ERROR`, not
`WRITE_PROTECTED`. -/
theorem erase_sector_without_wel_check :
    S25FL064L_EraseSector 5 dev0 ⟨false, [], [⟨0, []⟩, ⟨0, []⟩, ⟨0, [0, 0]⟩]⟩ 4096 =
      (S25FL064_NO_ERROR,
        ⟨false,
          [Event.cs true, Event.rw [S25FL064L_CMD_WREN] 0, Event.cs false,
           Event.cs true, Event.rw [S25FL064L_CMD_SE, 0, 0, 16, 0] 0, Event.cs false,
           Event.cs true, Event.rw [S25FL064L_CMD_RDSR1] 2, Event.cs false], []⟩) := by
  decide

/-! ### C3 — NotInitialized gating -/

/-- Claim C3 (counterexample): `S25FL064L_Read` invoked on a handle whose
`isInitialized` flag is false does not fail with `NOT_INITIALIZED` and
does issue commands to the chip: it returns `NO_ERROR` and the trace
contains the full read transaction. -/
theorem read_ignores_isInitialized :
    dev0.isInitialized = false ∧
    S25FL064L_Read dev0 bus0 0 (some ()) 1 =
      (S25FL064_NO_ERROR, [0],
        ⟨false,
          [Event.cs true, Event.rw [S25FL064L_CMD_4READ, 0, 0, 0, 0] 0,
           Event.rw [] 1, Event.cs false], []⟩) ∧
    S25FL064_NO_ERROR ≠ S25FL064_NOT_INITIALIZED := by
  refine ⟨rfl, by decide, by decide⟩

/-! ### C4 — address-width mode decoding -/

/-- Claim C4 (code_bug evaluation): a successful `Init` against a chip
whose configuration register 2 reads 0x00 — address-length bit (bit 0)
clear, so the claim requires short (3-byte) addressing — still leaves
`isShortAddress = false`: both arms of the decode assign `false`, and
every read/program/erase command of the driver frames a 4-byte address
(opcodes 0x13/0x12/0x21) regardless. -/
theorem init_address_mode_ignores_bit :
    (S25FL064L_Init 5 dev0 busInitShort).1 = S25FL064_NO_ERROR ∧
    (0 : Nat) &&& (1 <<< S25FL064L_BIT_ADDR_LENGTH) = 0 ∧
    (S25FL064L_Init 5 dev0 busInitShort).2.1.isShortAddress = false := by
  refine ⟨by decide, by decide, by decide⟩

/-! ### C5 — Init leaves state unchanged on failure -/

/-- Claim C5 (counterexample): an `Init` run whose final
configuration-register read fails returns an error but does not leave the
handle unchanged: starting from a handle with `isInitialized = true` and
`DID = 0`, the failed call clears `isInitialized` (it is cleared at
entry) and has already stored the manufacturer and device ID read by the
completed identification sub-steps. -/
theorem init_failure_mutates_handle :
    (S25FL064L_Init 5 { dev0 with isInitialized := true } busInitFail).1 ≠
      S25FL064_NO_ERROR ∧
    ({ dev0 with isInitialized := true } : Dev).isInitialized = true ∧
    (S25FL064L_Init 5 { dev0 with isInitialized := true } busInitFail).2.1.isInitialized
      = false ∧
    ({ dev0 with isInitialized := true } : Dev).DID = 0 ∧
    (S25FL064L_Init 5 { dev0 with isInitialized := true } busInitFail).2.1.DID
      = 0x6017 := by
  refine ⟨by decide, rfl, by decide, rfl, by decide⟩

/-! ### C6 — device-ID mismatch during Init -/

/-- Claim C6 (counterexample): `Init` performs no device-ID comparison:
against a chip reporting device ID 0x0000 (≠ 0x6017) with an otherwise
successful transport, it still returns `NO_ERROR`, sets
`isInitialized = true` and overwrites block size and block count. -/
theorem init_accepts_mismatched_device_id :
    (S25FL064L_Init 5 dev0 busInitBadId).1 = S25FL064_NO_ERROR ∧
    (S25FL064L_Init 5 dev0 busInitBadId).2.1.DID = 0 ∧
    (0 : Nat) ≠ S25FL064L_DEVICE_ID ∧
    (S25FL064L_Init 5 dev0 busInitBadId).2.1.isInitialized = true ∧
    dev0.BlockSize = 0 ∧ dev0.Blocks = 0 ∧
    (S25FL064L_Init 5 dev0 busInitBadId).2.1.BlockSize = S25FL064L_SECTOR_SIZE ∧
    (S25FL064L_Init 5 dev0 busInitBadId).2.1.Blocks = S25FL064L_SECTOR_COUNT := by
  refine ⟨by decide, by decide, by decide, by decide, rfl, rfl, by decide, by decide⟩

/-! ### C7 — Write parameter validation -/

/-- Claim C7 (counterexample): `S25FL064L_Write` with address 0 and
length 0 — both not positive — and a non-null buffer does not fail with
`INVALID_PARAM`: the source only null-checks `p_Device` and `p_Buffer`,
so the call proceeds, issues commands (the trace is non-empty) and
returns `NO_ERROR`. -/
theorem write_accepts_zero_address_and_length :
    (S25FL064L_Write 5 five0 dev0
        ⟨false, [], [⟨0, []⟩, ⟨0, [0, 2]⟩, ⟨0, []⟩, ⟨0, []⟩, ⟨0, [0, 0]⟩, ⟨0, [0, 0]⟩]⟩
        0 (some [5]) 0).1 = S25FL064_NO_ERROR ∧
    S25FL064_NO_ERROR ≠ S25FL064_INVALID_PARAM ∧
    (S25FL064L_Write 5 five0 dev0
        ⟨false, [], [⟨0, []⟩, ⟨0, [0, 2]⟩, ⟨0, []⟩, ⟨0, []⟩, ⟨0, [0, 0]⟩, ⟨0, [0, 0]⟩]⟩
        0 (some [5]) 0).2.trace ≠ [] := by
  refine ⟨by decide, by decide, by decide⟩

/-! ### C9 — GetError bit extraction -/

/-- Claim C9 (counterexample): with status register 2 reading 0x20
(bit 5 set, bit 6 clear), `S25FL064L_GetError` stores 0x01 — bit 0, the
`S25FL064L_MASK_PROG_ERROR` position — so the code maps register bit 5 to
the program-error output bit and register bit 6 to the erase-error output
bit.  The claim (register bit 6 → output bit 0, register bit 5 → output
bit 1) would require the output 0x02 here; the erase-error output bit of
the actual output is clear although register bit 5 is set. -/
theorem get_error_maps_bit5_to_prog :
    (S25FL064L_GetError ⟨false, [], [⟨0, [0, 0x20]⟩, ⟨0, []⟩]⟩).2.1 = some 1 ∧
    (0x20 : Nat) &&& (1 <<< 5) ≠ 0 ∧
    (1 : Nat) &&& S25FL064L_MASK_ERASE_ERROR = 0 ∧
    (1 : Nat) ≠ 2 := by
  refine ⟨by decide, by decide, by decide, by decide⟩

/-! ### Basic facts about the bus primitives -/

theorem doCS_cs (bus : Bus) (b : Bool) : (doCS bus b).cs = b := rfl

theorem doCS_trace (bus : Bus) (b : Bool) :
    (doCS bus b).trace = bus.trace ++ [Event.cs b] := rfl

theorem doCS_queue (bus : Bus) (b : Bool) : (doCS bus b).queue = bus.queue := rfl

theorem doRW_cs (bus : Bus) (tx : List Nat) (n : Nat) :
    (doRW bus tx n).2.2.cs = bus.cs := by
  rcases bus with ⟨c, t, q⟩
  cases q <;> rfl

theorem doRW_trace (bus : Bus) (tx : List Nat) (n : Nat) :
    (doRW bus tx n).2.2.trace = bus.trace ++ [Event.rw tx n] := by
  rcases bus with ⟨c, t, q⟩
  cases q <;> rfl

theorem doRW_queue (bus : Bus) (tx : List Nat) (n : Nat) :
    ∃ u, bus.queue = u ++ (doRW bus tx n).2.2.queue := by
  rcases bus with ⟨c, t, q⟩
  cases q with
  | nil => exact ⟨[], rfl⟩
  | cons r q => exact ⟨[r], rfl⟩

theorem doRW_code (bus : Bus) (tx : List Nat) (n : Nat) :
    (doRW bus tx n).1 = 0 ∨ (doRW bus tx n).1 ∈ bus.queue.map Resp.err := by
  rcases bus with ⟨c, t, q⟩
  cases q with
  | nil => exact Or.inl rfl
  | cons r q => exact Or.inr (by simp [doRW])

theorem command_cs (bus : Bus) (tx : List Nat) (n : Nat) :
    (S25FL064L_Command bus tx n).2.2.cs = false := rfl

theorem command_trace (bus : Bus) (tx : List Nat) (n : Nat) :
    (S25FL064L_Command bus tx n).2.2.trace =
      bus.trace ++ [Event.cs true, Event.rw tx n, Event.cs false] := by
  rcases bus with ⟨c, t, q⟩
  cases q <;> simp [S25FL064L_Command, doRW, doCS]

theorem command_queue (bus : Bus) (tx : List Nat) (n : Nat) :
    ∃ u, bus.queue = u ++ (S25FL064L_Command bus tx n).2.2.queue := by
  rcases bus with ⟨c, t, q⟩
  cases q with
  | nil => exact ⟨[], rfl⟩
  | cons r q => exact ⟨[r], rfl⟩

theorem command_code (bus : Bus) (tx : List Nat) (n : Nat) :
    (S25FL064L_Command bus tx n).1 = 0 ∨
    (S25FL064L_Command bus tx n).1 ∈ bus.queue.map Resp.err := by
  rcases bus with ⟨c, t, q⟩
  cases q with
  | nil => exact Or.inl rfl
  | cons r q => exact Or.inr (by simp [S25FL064L_Command, doRW, doCS])

/-- Transitivity of list extension, used to chase the trace through a
sequence of operations. -/
theorem extTrans {α : Type} {a b c : List α} (h1 : ∃ u, b = a ++ u)
    (h2 : ∃ u, c = b ++ u) : ∃ u, c = a ++ u := by
  obtain ⟨u, rfl⟩ := h1
  obtain ⟨v, rfl⟩ := h2
  exact ⟨u ++ v, by simp⟩

/-- Transitivity of the left-extension order on oracle queues. -/
theorem sufTrans {α : Type} {a b c : List α} (h1 : ∃ u, a = u ++ b)
    (h2 : ∃ u, b = u ++ c) : ∃ u, a = u ++ c := by
  obtain ⟨u, rfl⟩ := h1
  obtain ⟨v, rfl⟩ := h2
  exact ⟨u ++ v, by simp⟩

/-- Membership in the error list of a later queue lifts to the earlier
queue. -/
theorem errMono {q q' : List Resp} (h : ∃ u, q = u ++ q') {e : Nat}
    (he : e ∈ q'.map Resp.err) : e ∈ q.map Resp.err := by
  obtain ⟨u, rfl⟩ := h
  simp only [List.map_append, List.mem_append]
  exact Or.inr he

theorem waitBusy_cs : ∀ (f : Nat) (bus : Bus), bus.cs = false →
    (S25FL064L_WaitBusy f bus).2.cs = false := by
  intro f
  induction f with
  | zero => intro bus h; exact h
  | succ n ih =>
    intro bus h
    simp only [S25FL064L_WaitBusy]
    split
    · exact command_cs ..
    · split
      · exact ih _ (command_cs ..)
      · exact command_cs ..

theorem waitBusy_trace : ∀ (f : Nat) (bus : Bus),
    ∃ u, (S25FL064L_WaitBusy f bus).2.trace = bus.trace ++ u := by
  intro f
  induction f with
  | zero => intro bus; exact ⟨[], by simp [S25FL064L_WaitBusy]⟩
  | succ n ih =>
    intro bus
    simp only [S25FL064L_WaitBusy]
    split
    · exact ⟨_, command_trace ..⟩
    · split
      · exact extTrans ⟨_, command_trace ..⟩ (ih _)
      · exact ⟨_, command_trace ..⟩

theorem waitBusy_queue : ∀ (f : Nat) (bus : Bus),
    ∃ u, bus.queue = u ++ (S25FL064L_WaitBusy f bus).2.queue := by
  intro f
  induction f with
  | zero => intro bus; exact ⟨[], rfl⟩
  | succ n ih =>
    intro bus
    simp only [S25FL064L_WaitBusy]
    split
    · exact command_queue ..
    · split
      · exact sufTrans (command_queue ..) (ih _)
      · exact command_queue ..

theorem waitBusy_code : ∀ (f : Nat) (bus : Bus),
    (S25FL064L_WaitBusy f bus).1 = 0 ∨
    (S25FL064L_WaitBusy f bus).1 = S25FL064_POLL_LIMIT ∨
    (S25FL064L_WaitBusy f bus).1 ∈ bus.queue.map Resp.err := by
  intro f
  induction f with
  | zero => intro bus; exact Or.inr (Or.inl rfl)
  | succ n ih =>
    intro bus
    simp only [S25FL064L_WaitBusy]
    split
    · rcases command_code bus [S25FL064L_CMD_RDSR1] 2 with h | h
      · exact Or.inl h
      · exact Or.inr (Or.inr h)
    · split
      · rcases ih ((S25FL064L_Command bus [S25FL064L_CMD_RDSR1] 2).2.2) with h | h | h
        · exact Or.inl h
        · exact Or.inr (Or.inl h)
        · exact Or.inr (Or.inr (errMono (command_queue ..) h))
      · exact Or.inl rfl

/-! ### Chip-select discipline -/

theorem readLoop_cs : ∀ (f n : Nat) (bus : Bus), n ≤ 255 * f + 255 →
    (S25FL064L_ReadLoop (f + 1) n bus).2.2.cs = false ∨
    ((S25FL064L_ReadLoop (f + 1) n bus).1 = 0 ∧
      (S25FL064L_ReadLoop (f + 1) n bus).2.2.cs = bus.cs) := by
  intro f
  induction f with
  | zero =>
    intro n bus h
    have h255 : ¬ n > 255 := by omega
    simp only [S25FL064L_ReadLoop, if_neg h255]
    split
    · exact Or.inl rfl
    · rw [if_neg (by omega : ¬ n - n > 0)]
      exact Or.inr ⟨rfl, doRW_cs ..⟩
  | succ f ih =>
    intro n bus h
    by_cases h255 : n > 255
    · simp only [S25FL064L_ReadLoop, if_pos h255]
      split
      · exact Or.inl rfl
      · rw [if_pos (by omega : n - 255 > 0)]
        rcases ih (n - 255) _ (by omega) with hc | ⟨h0, hc⟩
        · exact Or.inl hc
        · exact Or.inr ⟨h0, hc.trans (doRW_cs ..)⟩
    · simp only [S25FL064L_ReadLoop, if_neg h255]
      split
      · exact Or.inl rfl
      · rw [if_neg (by omega : ¬ n - n > 0)]
        exact Or.inr ⟨rfl, doRW_cs ..⟩

set_option maxHeartbeats 1000000 in
theorem writeLoop_cs : ∀ (itF busyF : Nat) (buf txB : List Nat)
    (rem a off : Nat) (bus : Bus), bus.cs = false →
    (S25FL064L_WriteLoop itF busyF buf txB rem a off bus).2.cs = false := by
  intro itF
  induction itF with
  | zero => intro _ _ _ _ _ _ bus h; exact h
  | succ n ih =>
    intro busyF buf txB rem a off bus h
    rw [S25FL064L_WriteLoop.eq_2]
    repeat' split
    all_goals first
      | rfl
      | exact ih _ _ _ _ _ _ _ rfl
      | (rename_i heq _
         replace heq := congrArg (fun p => p.2.2.cs) heq
         simp only [command_cs] at heq
         exact heq.symm)
      | (rename_i heq _ _
         replace heq := congrArg (fun p => p.2.2.cs) heq
         simp only [command_cs] at heq
         exact heq.symm)

theorem readID_cs (dev : Dev) (bus : Bus) :
    (S25FL064L_ReadID dev bus).2.2.cs = false := by
  simp only [S25FL064L_ReadID]
  split <;> exact command_cs ..

theorem readUID_cs (dev : Dev) (bus : Bus) :
    (S25FL064L_ReadUID dev bus).2.2.cs = false := by
  simp only [S25FL064L_ReadUID]
  repeat' split
  all_goals rfl

theorem readJEDEC_cs (bus : Bus) :
    (S25FL064L_ReadJEDEC bus).2.cs = false := by
  simp only [S25FL064L_ReadJEDEC]
  repeat' split
  all_goals rfl

theorem reset_cs (dev : Dev) (bus : Bus) :
    (S25FL064L_Reset dev bus).2.2.cs = bus.cs := rfl

theorem enterPD_cs (dev : Dev) (bus : Bus) :
    (S25FL064L_EnterPowerDown dev bus).2.2.cs = false := by
  simp only [S25FL064L_EnterPowerDown]
  split <;> exact command_cs ..

theorem leavePD_cs (busyFuel : Nat) (dev : Dev) (bus : Bus) :
    (S25FL064L_LeavePowerDown busyFuel dev bus).2.2.cs = false := by
  simp only [S25FL064L_LeavePowerDown]
  split
  · exact command_cs ..
  · split
    · exact waitBusy_cs _ _ (command_cs ..)
    · exact waitBusy_cs _ _ (command_cs ..)

theorem getError_cs (bus : Bus) :
    (S25FL064L_GetError bus).2.2.cs = false := by
  simp only [S25FL064L_GetError]
  split <;> exact command_cs ..

theorem eraseSector_cs (busyFuel : Nat) (dev : Dev) (bus : Bus)
    (address : Nat) :
    (S25FL064L_EraseSector busyFuel dev bus address).2.cs = false := by
  simp only [S25FL064L_EraseSector]
  split
  · exact command_cs ..
  · split
    · rfl
    · exact waitBusy_cs _ _ rfl

theorem eraseChip_cs (busyFuel : Nat) (dev : Dev) (bus : Bus) :
    (S25FL064L_EraseChip busyFuel dev bus).2.cs = false := by
  simp only [S25FL064L_EraseChip]
  split
  · exact command_cs ..
  · split
    · exact command_cs ..
    · exact waitBusy_cs _ _ (command_cs ..)

theorem init_cs (busyFuel : Nat) (dev : Dev) (bus : Bus) :
    (S25FL064L_Init busyFuel dev bus).2.2.cs = false := by
  simp only [S25FL064L_Init]
  split
  · exact leavePD_cs ..
  · split
    · exact (reset_cs ..).trans (leavePD_cs ..)
    · split
      · exact readID_cs ..
      · split
        · exact readUID_cs ..
        · split
          · exact readJEDEC_cs ..
          · split
            · exact command_cs ..
            · exact command_cs ..

theorem write_cs (busyFuel : Nat) (txInit : List Nat) (dev : Dev)
    (bus : Bus) (address : Nat) (pBuffer : Option (List Nat)) (length : Nat)
    (h : bus.cs = false) :
    (S25FL064L_Write busyFuel txInit dev bus address pBuffer length).2.cs
      = false := by
  cases pBuffer with
  | none => exact h
  | some buf =>
    simp only [S25FL064L_Write]
    split
    · exact writeLoop_cs _ _ _ _ _ _ _ _ h
    · exact waitBusy_cs _ _ (writeLoop_cs _ _ _ _ _ _ _ _ h)

theorem read_cs (dev : Dev) (bus : Bus) (start : Nat)
    (pBuffer : Option Unit) (length : Nat) (h : bus.cs = false) :
    (S25FL064L_Read dev bus start pBuffer length).2.2.cs = false := by
  cases pBuffer with
  | none => exact h
  | some u =>
    simp only [S25FL064L_Read]
    split
    · rfl
    · split
      · next h2 =>
        rcases readLoop_cs length length _ (by omega) with hc | ⟨h0, _⟩
        · exact hc
        · exact absurd h0 h2
      · rfl

/-! ### C10 — chip select deasserted on every return path -/

/-- Claim C10: every public driver operation, entered with chip select
deasserted, returns with chip select deasserted again — on success and on
every error return path alike (the quantified oracle queue covers every
combination of transport failures and status responses, and the fuel
covers every terminating busy-poll). -/
theorem driver_releases_chip_select (busyFuel : Nat) (txInit : List Nat)
    (dev : Dev) (bus : Bus) (address start length rdLen : Nat)
    (pBuffer : Option (List Nat)) (pRead : Option Unit)
    (h : bus.cs = false) :
    (S25FL064L_Init busyFuel dev bus).2.2.cs = false ∧
    (S25FL064L_GetError bus).2.2.cs = false ∧
    (S25FL064L_Reset dev bus).2.2.cs = false ∧
    (S25FL064L_EnterPowerDown dev bus).2.2.cs = false ∧
    (S25FL064L_LeavePowerDown busyFuel dev bus).2.2.cs = false ∧
    (S25FL064L_EraseSector busyFuel dev bus address).2.cs = false ∧
    (S25FL064L_EraseChip busyFuel dev bus).2.cs = false ∧
    (S25FL064L_Write busyFuel txInit dev bus address pBuffer length).2.cs = false ∧
    (S25FL064L_Read dev bus start pRead rdLen).2.2.cs = false :=
  ⟨init_cs .., getError_cs .., (reset_cs ..).trans h, enterPD_cs ..,
   leavePD_cs .., eraseSector_cs .., eraseChip_cs ..,
   write_cs _ _ _ _ _ _ _ h, read_cs _ _ _ _ _ h⟩

/-- Witness for C10 at a concrete handle, oracle and arguments. -/
theorem driver_releases_chip_select_witness :
    (S25FL064L_Init 5 dev0 bus0).2.2.cs = false ∧
    (S25FL064L_GetError bus0).2.2.cs = false ∧
    (S25FL064L_Reset dev0 bus0).2.2.cs = false ∧
    (S25FL064L_EnterPowerDown dev0 bus0).2.2.cs = false ∧
    (S25FL064L_LeavePowerDown 5 dev0 bus0).2.2.cs = false ∧
    (S25FL064L_EraseSector 5 dev0 bus0 4096).2.cs = false ∧
    (S25FL064L_EraseChip 5 dev0 bus0).2.cs = false ∧
    (S25FL064L_Write 5 five0 dev0 bus0 0 (some [1]) 1).2.cs = false ∧
    (S25FL064L_Read dev0 bus0 0 (some ()) 1).2.2.cs = false :=
  driver_releases_chip_select 5 five0 dev0 bus0 4096 0 1 1 (some [1])
    (some ()) rfl

/-! ### C8 — single-frame chunked read -/

theorem chunkSizesAux_small (f n : Nat) (h : ¬ n > 255) :
    chunkSizesAux f n = [n] := by
  cases f with
  | zero => rfl
  | succ f => simp [chunkSizesAux, if_neg h]

theorem chunkSizes_sum : ∀ (f n : Nat), (chunkSizesAux f n).sum = n := by
  intro f
  induction f with
  | zero => intro n; simp [chunkSizesAux]
  | succ f ih =>
    intro n
    by_cases h : n > 255
    · simp only [chunkSizesAux, if_pos h, List.sum_cons, ih]
      omega
    · simp [chunkSizesAux, if_neg h]

theorem chunkSizes_le : ∀ (f n : Nat), n ≤ 255 * f + 255 →
    ∀ c ∈ chunkSizesAux f n, c ≤ 255 := by
  intro f
  induction f with
  | zero =>
    intro n hn c hc
    simp only [chunkSizesAux, List.mem_singleton] at hc
    omega
  | succ f ih =>
    intro n hn c hc
    by_cases h : n > 255
    · simp only [chunkSizesAux, if_pos h, List.mem_cons] at hc
      rcases hc with rfl | hc
      · omega
      · exact ih (n - 255) (by omega) c hc
    · simp only [chunkSizesAux, if_neg h, List.mem_singleton] at hc
      omega

/-- Behaviour of one `p_RW` exchange when every pending oracle response is
a transport success. -/
theorem doRW_ok (bus : Bus) (tx : List Nat) (len : Nat)
    (hq : ∀ r ∈ bus.queue, r.err = 0) :
    ∃ rx q, doRW bus tx len =
      (0, rx, ⟨bus.cs, bus.trace ++ [Event.rw tx len], q⟩) ∧
      ∀ r ∈ q, r.err = 0 := by
  rcases bus with ⟨c, t, q⟩
  cases q with
  | nil => exact ⟨List.replicate len 0, [], rfl, by simp⟩
  | cons r q =>
    refine ⟨r.rx, q, ?_, fun x hx => hq x (by simp [hx])⟩
    simp [doRW, hq r (by simp)]

/-- The receive loop of `Read` under an all-success oracle: it succeeds,
appends exactly the chunked receive events to the trace, and leaves the
chip-select level untouched. -/
theorem readLoop_ok : ∀ (f n : Nat) (bus : Bus),
    (∀ r ∈ bus.queue, r.err = 0) → n ≤ 255 * f + 255 →
    ∃ data q, S25FL064L_ReadLoop (f + 1) n bus =
      (0, data,
        ⟨bus.cs,
         bus.trace ++ (chunkSizesAux f n).map (fun c => Event.rw [] c),
         q⟩) ∧
      ∀ r ∈ q, r.err = 0 := by
  intro f
  induction f with
  | zero =>
    intro n bus hq hn
    have h255 : ¬ n > 255 := by omega
    obtain ⟨rx, q, hdo, hq2⟩ := doRW_ok bus [] (if n > 255 then 255 else n) hq
    refine ⟨rx, q, ?_, hq2⟩
    rw [S25FL064L_ReadLoop.eq_2, hdo]
    simp only [ne_eq, not_true_eq_false, if_neg h255]
    simp [if_neg (show ¬ n - n > 0 by omega), chunkSizesAux]
  | succ f ih =>
    intro n bus hq hn
    by_cases h255 : n > 255
    · obtain ⟨rx, q, hdo, hq2⟩ :=
        doRW_ok bus [] (if n > 255 then 255 else n) hq
      obtain ⟨data, qf, hrec, hqf⟩ :=
        ih (n - 255) ⟨bus.cs, bus.trace ++ [Event.rw [] 255], q⟩ hq2 (by omega)
      refine ⟨rx ++ data, qf, ?_, hqf⟩
      rw [S25FL064L_ReadLoop.eq_2, hdo]
      simp only [ne_eq, not_true_eq_false, if_pos h255,
        if_pos (show n - 255 > 0 by omega)]
      rw [hrec]
      simp [chunkSizesAux, if_pos h255]
    · obtain ⟨rx, q, hdo, hq2⟩ :=
        doRW_ok bus [] (if n > 255 then 255 else n) hq
      refine ⟨rx, q, ?_, hq2⟩
      rw [S25FL064L_ReadLoop.eq_2, hdo]
      simp only [ne_eq, not_true_eq_false, if_neg h255]
      simp [if_neg (show ¬ n - n > 0 by omega), chunkSizesAux_small _ _ h255]

/-- Claim C8: on a valid handle with a successful transport, a read of
`length > 0` bytes issues exactly one command frame — the 4READ opcode
with the full 4-byte big-endian start address — keeps chip select
asserted while the response is streamed in receive-only chunks (each at
most 255 bytes, the nRF52832 single-transaction limit, and summing to
exactly `length`), and releases chip select afterwards; no second
command frame occurs even when the range spans multiple erase blocks. -/
theorem read_single_frame_chunked (dev : Dev) (bus : Bus)
    (start length : Nat) (hlen : 0 < length)
    (hq : ∀ r ∈ bus.queue, r.err = 0) :
    ∃ data q,
      S25FL064L_Read dev bus start (some ()) length =
        (S25FL064_NO_ERROR, data,
          ⟨false,
           bus.trace ++
             [Event.cs true,
              Event.rw [S25FL064L_CMD_4READ,
                (start &&& 0xFF000000) >>> 0x18,
                (start &&& 0x00FF0000) >>> 0x10,
                (start &&& 0x0000FF00) >>> 0x08,
                (start &&& 0x000000FF) >>> 0x00] 0] ++
             (chunkSizes length).map (fun c => Event.rw [] c) ++
             [Event.cs false], q⟩) ∧
      (∀ c ∈ chunkSizes length, c ≤ 255) ∧
      (chunkSizes length).sum = length := by
  obtain ⟨rx0, q1, hdo, hq1⟩ := doRW_ok (doCS bus true)
    [S25FL064L_CMD_4READ,
     (start &&& 0xFF000000) >>> 0x18,
     (start &&& 0x00FF0000) >>> 0x10,
     (start &&& 0x0000FF00) >>> 0x08,
     (start &&& 0x000000FF) >>> 0x00] 0 hq
  obtain ⟨data, q2, hloop, hq2⟩ := readLoop_ok length length
    ⟨(doCS bus true).cs,
     (doCS bus true).trace ++
       [Event.rw [S25FL064L_CMD_4READ,
         (start &&& 0xFF000000) >>> 0x18,
         (start &&& 0x00FF0000) >>> 0x10,
         (start &&& 0x0000FF00) >>> 0x08,
         (start &&& 0x000000FF) >>> 0x00] 0], q1⟩ hq1 (by omega)
  refine ⟨data, q2, ?_,
    fun c hc => chunkSizes_le length length (by omega) c hc,
    chunkSizes_sum length length⟩
  simp only [S25FL064L_Read]
  rw [hdo]
  simp only [ne_eq, not_true_eq_false, reduceIte]
  rw [hloop]
  simp [doCS, chunkSizes, List.append_assoc, S25FL064_NO_ERROR]

/-- Claim C2 (amended): a write-enable command immediately precedes every
program/erase command, but the write-enable latch is only checked by
`Write`: with the status response reporting WEL clear, `Write` returns
`WRITE_PROTECTED` after exactly the WREN command and the status read —
no page-program frame is issued; `EraseSector` and `EraseChip`, by
contrast, issue the erase command directly after the WREN command with
no intervening status read. -/
theorem write_checks_wel_erase_does_not :
    (∀ (busyFuel : Nat) (txInit : List Nat) (dev : Dev) (c : Bool)
       (t : List Event) (r1 r2 : Resp) (q : List Resp)
       (address length : Nat) (buf : List Nat),
       r1.err = 0 → r2.err = 0 →
       (r2.rx.getD 1 0) &&& (1 <<< S25FL064L_BIT_WEL) = 0 →
       S25FL064L_Write busyFuel txInit dev ⟨c, t, r1 :: r2 :: q⟩ address
           (some buf) length =
         (S25FL064_WRITE_PROTECTED,
           ⟨false,
            t ++ [Event.cs true,
                  Event.rw ((txInit.set 0 S25FL064L_CMD_WREN).take 1) 0,
                  Event.cs false, Event.cs true,
                  Event.rw ((txInit.set 0 S25FL064L_CMD_WREN).set 0
                    S25FL064L_CMD_RDSR1) 2,
                  Event.cs false], q⟩)) ∧
    (∀ (busyFuel : Nat) (dev : Dev) (c : Bool) (t : List Event)
       (r1 : Resp) (q : List Resp) (address : Nat),
       r1.err = 0 →
       ∃ u, (S25FL064L_EraseSector busyFuel dev ⟨c, t, r1 :: q⟩ address).2.trace =
         t ++ [Event.cs true, Event.rw [S25FL064L_CMD_WREN] 0, Event.cs false,
               Event.cs true,
               Event.rw [S25FL064L_CMD_SE,
                 (address &&& 0xFF000000) >>> 0x18,
                 (address &&& 0x00FF0000) >>> 0x10,
                 (address &&& 0x0000FF00) >>> 0x08,
                 (address &&& 0x000000FF) >>> 0x00] 0,
               Event.cs false] ++ u) ∧
    (∀ (busyFuel : Nat) (dev : Dev) (c : Bool) (t : List Event)
       (r1 : Resp) (q : List Resp),
       r1.err = 0 →
       ∃ u, (S25FL064L_EraseChip busyFuel dev ⟨c, t, r1 :: q⟩).2.trace =
         t ++ [Event.cs true, Event.rw [S25FL064L_CMD_WREN] 0, Event.cs false,
               Event.cs true, Event.rw [S25FL064L_CMD_CE] 0, Event.cs false]
           ++ u) := by
  refine ⟨?_, ?_, ?_⟩
  · intro busyF txInit dev c t r1 r2 q address length buf h1 h2 hwel
    have hcmd1 : S25FL064L_Command ⟨c, t, r1 :: r2 :: q⟩
        ((txInit.set 0 S25FL064L_CMD_WREN).take 1) 0 =
        (r1.err, r1.rx,
          ⟨false, t ++ [Event.cs true,
            Event.rw ((txInit.set 0 S25FL064L_CMD_WREN).take 1) 0,
            Event.cs false], r2 :: q⟩) := by
      simp [S25FL064L_Command, doCS, doRW]
    have hcmd2 : S25FL064L_Command
        (⟨false, t ++ [Event.cs true,
          Event.rw ((txInit.set 0 S25FL064L_CMD_WREN).take 1) 0,
          Event.cs false], r2 :: q⟩ : Bus)
        ((txInit.set 0 S25FL064L_CMD_WREN).set 0 S25FL064L_CMD_RDSR1) 2 =
        (r2.err, r2.rx,
          ⟨false, t ++ [Event.cs true,
            Event.rw ((txInit.set 0 S25FL064L_CMD_WREN).take 1) 0,
            Event.cs false, Event.cs true,
            Event.rw ((txInit.set 0 S25FL064L_CMD_WREN).set 0
              S25FL064L_CMD_RDSR1) 2,
            Event.cs false], q⟩) := by
      simp [S25FL064L_Command, doCS, doRW]
    have hstep : S25FL064L_WriteLoop (length + 1) busyF buf txInit length
        address 0 ⟨c, t, r1 :: r2 :: q⟩ =
        (S25FL064_WRITE_PROTECTED,
          ⟨false,
           t ++ [Event.cs true,
                 Event.rw ((txInit.set 0 S25FL064L_CMD_WREN).take 1) 0,
                 Event.cs false, Event.cs true,
                 Event.rw ((txInit.set 0 S25FL064L_CMD_WREN).set 0
                   S25FL064L_CMD_RDSR1) 2,
                 Event.cs false], q⟩) := by
      rw [S25FL064L_WriteLoop.eq_2, hcmd1]
      simp only [h1, ne_eq, not_true_eq_false, reduceIte]
      rw [hcmd2]
      simp only [h2, ne_eq, not_true_eq_false, reduceIte]
      rw [if_pos hwel]
    simp only [S25FL064L_Write]
    rw [hstep]
    simp [S25FL064_WRITE_PROTECTED]
  · intro busyF dev c t r1 q address h1
    simp only [S25FL064L_EraseSector]
    have hcmd : S25FL064L_Command ⟨c, t, r1 :: q⟩ [S25FL064L_CMD_WREN] 0 =
        (r1.err, r1.rx,
          ⟨false, t ++ [Event.cs true, Event.rw [S25FL064L_CMD_WREN] 0,
            Event.cs false], q⟩) := by
      simp [S25FL064L_Command, doCS, doRW]
    rw [hcmd]
    simp only [h1, ne_eq, not_true_eq_false, reduceIte]
    obtain ⟨⟨e2, rx2, bus3⟩, heq⟩ :
        ∃ p, doRW (doCS ⟨false, t ++ [Event.cs true,
          Event.rw [S25FL064L_CMD_WREN] 0, Event.cs false], q⟩ true)
          [S25FL064L_CMD_SE,
           (address &&& 0xFF000000) >>> 0x18,
           (address &&& 0x00FF0000) >>> 0x10,
           (address &&& 0x0000FF00) >>> 0x08,
           (address &&& 0x000000FF) >>> 0x00] 0 = p := ⟨_, rfl⟩
    have htr := doRW_trace (doCS ⟨false, t ++ [Event.cs true,
        Event.rw [S25FL064L_CMD_WREN] 0, Event.cs false], q⟩ true)
        [S25FL064L_CMD_SE,
         (address &&& 0xFF000000) >>> 0x18,
         (address &&& 0x00FF0000) >>> 0x10,
         (address &&& 0x0000FF00) >>> 0x08,
         (address &&& 0x000000FF) >>> 0x00] 0
    rw [heq] at htr
    rw [heq]
    have htr2 : bus3.trace = _ := htr
    split
    · refine ⟨[], ?_⟩
      simp [doCS, htr2]
    · obtain ⟨u, hu⟩ := waitBusy_trace busyF (doCS bus3 false)
      refine ⟨u, ?_⟩
      rw [hu]
      simp [doCS, htr2]
  · intro busyF dev c t r1 q h1
    simp only [S25FL064L_EraseChip]
    have hcmd : S25FL064L_Command ⟨c, t, r1 :: q⟩ [S25FL064L_CMD_WREN] 0 =
        (r1.err, r1.rx,
          ⟨false, t ++ [Event.cs true, Event.rw [S25FL064L_CMD_WREN] 0,
            Event.cs false], q⟩) := by
      simp [S25FL064L_Command, doCS, doRW]
    rw [hcmd]
    simp only [h1, ne_eq, not_true_eq_false, reduceIte]
    obtain ⟨⟨e2, rx2, bus2⟩, heq⟩ :
        ∃ p, S25FL064L_Command ⟨false, t ++ [Event.cs true,
          Event.rw [S25FL064L_CMD_WREN] 0, Event.cs false], q⟩
          [S25FL064L_CMD_CE] 0 = p := ⟨_, rfl⟩
    have htr := command_trace ⟨false, t ++ [Event.cs true,
        Event.rw [S25FL064L_CMD_WREN] 0, Event.cs false], q⟩
        [S25FL064L_CMD_CE] 0
    rw [heq] at htr
    have htr2 : bus2.trace = _ := htr
    rw [heq]
    split
    · exact ⟨[], by simp [htr2]⟩
    · obtain ⟨u, hu⟩ := waitBusy_trace busyF bus2
      refine ⟨u, ?_⟩
      rw [hu]
      simp [htr2]

/-- Witness for C8: a 300-byte read from address 0x01020304 on an idle
chip streams chunks of 255 and 45 bytes under one command frame. -/
theorem read_single_frame_chunked_witness :
    ∃ data q,
      S25FL064L_Read dev0 bus0 0x01020304 (some ()) 300 =
        (S25FL064_NO_ERROR, data,
          ⟨false,
           bus0.trace ++
             [Event.cs true,
              Event.rw [S25FL064L_CMD_4READ,
                (0x01020304 &&& 0xFF000000) >>> 0x18,
                (0x01020304 &&& 0x00FF0000) >>> 0x10,
                (0x01020304 &&& 0x0000FF00) >>> 0x08,
                (0x01020304 &&& 0x000000FF) >>> 0x00] 0] ++
             (chunkSizes 300).map (fun c => Event.rw [] c) ++
             [Event.cs false], q⟩) ∧
      (∀ c ∈ chunkSizes 300, c ≤ 255) ∧
      (chunkSizes 300).sum = 300 :=
  read_single_frame_chunked dev0 bus0 0x01020304 300 (by decide) (by decide)

/-- Witness for C2 (amended) at concrete oracles: a write against a chip
whose status reads 0x00 stops with `WRITE_PROTECTED` after WREN and the
status read, a sector erase issues WREN directly followed by the SE
frame, and a chip erase issues WREN directly followed by CE. -/
theorem write_checks_wel_erase_does_not_witness :
    S25FL064L_Write 5 five0 dev0 ⟨false, [], [⟨0, []⟩, ⟨0, [0, 0]⟩]⟩ 0
        (some [1]) 1 =
      (S25FL064_WRITE_PROTECTED,
        ⟨false,
         [] ++ [Event.cs true,
               Event.rw ((five0.set 0 S25FL064L_CMD_WREN).take 1) 0,
               Event.cs false, Event.cs true,
               Event.rw ((five0.set 0 S25FL064L_CMD_WREN).set 0
                 S25FL064L_CMD_RDSR1) 2,
               Event.cs false], []⟩) ∧
    (∃ u, (S25FL064L_EraseSector 5 dev0 ⟨false, [], [⟨0, []⟩]⟩ 4096).2.trace =
      [] ++ [Event.cs true, Event.rw [S25FL064L_CMD_WREN] 0, Event.cs false,
            Event.cs true,
            Event.rw [S25FL064L_CMD_SE,
              (4096 &&& 0xFF000000) >>> 0x18,
              (4096 &&& 0x00FF0000) >>> 0x10,
              (4096 &&& 0x0000FF00) >>> 0x08,
              (4096 &&& 0x000000FF) >>> 0x00] 0,
            Event.cs false] ++ u) ∧
    (∃ u, (S25FL064L_EraseChip 5 dev0 ⟨false, [], [⟨0, []⟩]⟩).2.trace =
      [] ++ [Event.cs true, Event.rw [S25FL064L_CMD_WREN] 0, Event.cs false,
            Event.cs true, Event.rw [S25FL064L_CMD_CE] 0, Event.cs false]
        ++ u) :=
  ⟨write_checks_wel_erase_does_not.1 5 five0 dev0 false [] ⟨0, []⟩
      ⟨0, [0, 0]⟩ [] 0 1 [1] rfl rfl (by decide),
   write_checks_wel_erase_does_not.2.1 5 dev0 false [] ⟨0, []⟩ [] 4096 rfl,
   write_checks_wel_erase_does_not.2.2 5 dev0 false [] ⟨0, []⟩ [] rfl⟩

/-! ### C9 — GetError, amended -/

/-- Claim C9 (amended): with both transactions succeeding, `GetError`
stores `(SR2 & 0x60) >> 5` to its output — the program-error flag taken
from register bit 5 lands at the `S25FL064L_MASK_PROG_ERROR` position
(bit 0) and the erase-error flag taken from register bit 6 at the
`S25FL064L_MASK_ERASE_ERROR` position (bit 1) — and then issues the
clear-status command as its final transaction. -/
theorem get_error_extracts_and_clears (c : Bool) (t : List Event)
    (r1 r2 : Resp) (q : List Resp) (h1 : r1.err = 0) (h2 : r2.err = 0) :
    S25FL064L_GetError ⟨c, t, r1 :: r2 :: q⟩ =
      (0, some (((r1.rx.getD 1 0) &&& 0x60) >>> 0x05),
        ⟨false,
         t ++ [Event.cs true, Event.rw [S25FL064L_CMD_RDSR2] 2,
               Event.cs false, Event.cs true, Event.rw [S25FL064L_CMD_CLSR] 0,
               Event.cs false], q⟩) ∧
    ((((r1.rx.getD 1 0) &&& 0x60) >>> 0x05).testBit 0 =
      (r1.rx.getD 1 0).testBit 5) ∧
    ((((r1.rx.getD 1 0) &&& 0x60) >>> 0x05).testBit 1 =
      (r1.rx.getD 1 0).testBit 6) := by
  refine ⟨?_, ?_, ?_⟩
  · simp [S25FL064L_GetError, S25FL064L_Command, doCS, doRW, h1, h2]
  · rw [Nat.testBit_shiftRight]
    rw [Nat.testBit_and]
    simp [show Nat.testBit 96 5 = true by decide]
  · rw [Nat.testBit_shiftRight]
    rw [Nat.testBit_and]
    simp [show Nat.testBit 96 6 = true by decide]

/-- Witness for C9 (amended) with status register 2 reading 0x61: bits 5
and 6 are extracted to output bits 0 and 1 and the reserved bit 0 is
dropped. -/
theorem get_error_extracts_and_clears_witness :
    S25FL064L_GetError ⟨false, [], [⟨0, [0, 0x61]⟩, ⟨0, []⟩]⟩ =
      (0, some ((([0, 0x61].getD 1 0) &&& 0x60) >>> 0x05),
        ⟨false,
         [] ++ [Event.cs true, Event.rw [S25FL064L_CMD_RDSR2] 2,
               Event.cs false, Event.cs true, Event.rw [S25FL064L_CMD_CLSR] 0,
               Event.cs false], []⟩) ∧
    (((([0, 0x61].getD 1 0) &&& 0x60) >>> 0x05).testBit 0 =
      ([0, 0x61].getD 1 0).testBit 5) ∧
    (((([0, 0x61].getD 1 0) &&& 0x60) >>> 0x05).testBit 1 =
      ([0, 0x61].getD 1 0).testBit 6) :=
  get_error_extracts_and_clears false [] ⟨0, [0, 0x61]⟩ ⟨0, []⟩ [] rfl rfl

/-! ### C5 and C6 — Init state discipline -/

theorem leavePD_init (f : Nat) (dev : Dev) (bus : Bus) :
    (S25FL064L_LeavePowerDown f dev bus).2.1.isInitialized
      = dev.isInitialized := by
  simp only [S25FL064L_LeavePowerDown]
  repeat' split
  all_goals rfl

theorem reset_init (dev : Dev) (bus : Bus) :
    (S25FL064L_Reset dev bus).2.1.isInitialized = false := rfl

theorem readID_init (dev : Dev) (bus : Bus) :
    (S25FL064L_ReadID dev bus).2.1.isInitialized = dev.isInitialized := by
  simp only [S25FL064L_ReadID]
  repeat' split
  all_goals rfl

theorem readUID_init (dev : Dev) (bus : Bus) :
    (S25FL064L_ReadUID dev bus).2.1.isInitialized = dev.isInitialized := by
  simp only [S25FL064L_ReadUID]
  repeat' split
  all_goals rfl

/-- Case analysis of `S25FL064L_Init`: every failing run leaves
`isInitialized = false` (the flag is cleared at entry and only the final
step sets it), and every successful run ends with the flag trio assigned
and the geometry constants stored. -/
theorem init_cases (busyFuel : Nat) (dev : Dev) (bus : Bus) :
    ((S25FL064L_Init busyFuel dev bus).1 ≠ S25FL064_NO_ERROR ∧
     (S25FL064L_Init busyFuel dev bus).2.1.isInitialized = false) ∨
    ((S25FL064L_Init busyFuel dev bus).1 = S25FL064_NO_ERROR ∧
     (S25FL064L_Init busyFuel dev bus).2.1.isInitialized = true ∧
     (S25FL064L_Init busyFuel dev bus).2.1.isPowerDown = false ∧
     (S25FL064L_Init busyFuel dev bus).2.1.isWriteProtect = false ∧
     (S25FL064L_Init busyFuel dev bus).2.1.BlockSize = S25FL064L_SECTOR_SIZE ∧
     (S25FL064L_Init busyFuel dev bus).2.1.Blocks = S25FL064L_SECTOR_COUNT) := by
  rw [S25FL064L_Init.eq_def]
  split
  next e1 dev1 bus1 heq1 =>
    have h1 := leavePD_init busyFuel { dev with isInitialized := false } bus
    rw [heq1] at h1
    split
    next hc1 => exact Or.inl ⟨hc1, h1⟩
    next hc1 =>
      split
      next e2 dev2 bus2 heq2 =>
        have h2 := reset_init dev1 bus1
        rw [heq2] at h2
        split
        next hc2 => exact Or.inl ⟨hc2, h2⟩
        next hc2 =>
          split
          next e3 dev3 bus3 heq3 =>
            have h3 := readID_init dev2 bus2
            rw [heq3] at h3
            rw [h2] at h3
            split
            next hc3 => exact Or.inl ⟨Nat.one_ne_zero, h3⟩
            next hc3 =>
              split
              next e4 dev4 bus4 heq4 =>
                have h4 := readUID_init dev3 bus3
                rw [heq4] at h4
                rw [h3] at h4
                split
                next hc4 => exact Or.inl ⟨Nat.one_ne_zero, h4⟩
                next hc4 =>
                  split
                  next e5 bus5 heq5 =>
                    split
                    next hc5 => exact Or.inl ⟨Nat.one_ne_zero, h4⟩
                    next hc5 =>
                      split
                      next e6 rx6 bus6 heq6 =>
                        split
                        next hc6 => exact Or.inl ⟨hc6, h4⟩
                        next hc6 =>
                          exact Or.inr ⟨rfl, rfl, rfl, rfl, rfl, rfl⟩

/-- Claim C5 (amended): the flags `isInitialized = true`,
`isPowerDown = false`, `isWriteProtect = false` are assigned together
only when the whole initialization sequence succeeds, and every failing
`Init` returns with `isInitialized = false` — but a failing `Init` does
not leave the handle unchanged (see the counterexample: the flag is
cleared at entry and completed sub-steps keep their updates). -/
theorem init_flag_discipline (busyFuel : Nat) (dev : Dev) (bus : Bus) :
    ((S25FL064L_Init busyFuel dev bus).1 ≠ S25FL064_NO_ERROR →
      (S25FL064L_Init busyFuel dev bus).2.1.isInitialized = false) ∧
    ((S25FL064L_Init busyFuel dev bus).1 = S25FL064_NO_ERROR →
      (S25FL064L_Init busyFuel dev bus).2.1.isInitialized = true ∧
      (S25FL064L_Init busyFuel dev bus).2.1.isPowerDown = false ∧
      (S25FL064L_Init busyFuel dev bus).2.1.isWriteProtect = false) := by
  rcases init_cases busyFuel dev bus with ⟨hne, hf⟩ | ⟨h0, ht, hp, hw, _, _⟩
  · exact ⟨fun _ => hf, fun h => absurd h hne⟩
  · exact ⟨fun h => absurd h0 h, fun _ => ⟨ht, hp, hw⟩⟩

/-- Witness for C5 (amended): a fully successful concrete `Init` run
returns `NO_ERROR` with the flag trio assigned. -/
theorem init_flag_discipline_witness :
    ((S25FL064L_Init 5 dev0 busInitShort).1 ≠ S25FL064_NO_ERROR →
      (S25FL064L_Init 5 dev0 busInitShort).2.1.isInitialized = false) ∧
    ((S25FL064L_Init 5 dev0 busInitShort).1 = S25FL064_NO_ERROR →
      (S25FL064L_Init 5 dev0 busInitShort).2.1.isInitialized = true ∧
      (S25FL064L_Init 5 dev0 busInitShort).2.1.isPowerDown = false ∧
      (S25FL064L_Init 5 dev0 busInitShort).2.1.isWriteProtect = false) :=
  init_flag_discipline 5 dev0 busInitShort

/-- Claim C6 (amended): a successful `Init` sets `isInitialized` and the
geometry constants whatever device ID was read — the driver never
compares the ID against `S25FL064L_DEVICE_ID`. -/
theorem init_success_sets_geometry (busyFuel : Nat) (dev : Dev) (bus : Bus)
    (h : (S25FL064L_Init busyFuel dev bus).1 = S25FL064_NO_ERROR) :
    (S25FL064L_Init busyFuel dev bus).2.1.isInitialized = true ∧
    (S25FL064L_Init busyFuel dev bus).2.1.BlockSize = S25FL064L_SECTOR_SIZE ∧
    (S25FL064L_Init busyFuel dev bus).2.1.Blocks = S25FL064L_SECTOR_COUNT := by
  rcases init_cases busyFuel dev bus with ⟨hne, _⟩ | ⟨_, ht, _, _, hbs, hbc⟩
  · exact absurd h hne
  · exact ⟨ht, hbs, hbc⟩

/-- Witness for C6 (amended): the concrete run that reads device ID
0x0000 still gets the geometry and the flag. -/
theorem init_success_sets_geometry_witness :
    (S25FL064L_Init 5 dev0 busInitBadId).2.1.isInitialized = true ∧
    (S25FL064L_Init 5 dev0 busInitBadId).2.1.BlockSize = S25FL064L_SECTOR_SIZE ∧
    (S25FL064L_Init 5 dev0 busInitBadId).2.1.Blocks = S25FL064L_SECTOR_COUNT :=
  init_success_sets_geometry 5 dev0 busInitBadId (by decide)

/-! ### C3 — no isInitialized gating: error-code provenance -/

/-- Error codes a driver data operation can produce on its own: success,
the `||`-collapsed 1, `WRITE_PROTECTED`, the model's poll sentinel — any
other value, in particular `NOT_INITIALIZED`, must come from the
transport oracle queue. -/
def DriverCode (e : Nat) (q : List Resp) : Prop :=
  e = 0 ∨ e = 1 ∨ e = 4 ∨ e = S25FL064_POLL_LIMIT ∨ e ∈ q.map Resp.err

theorem codeOfErr {e : Nat} {q : List Resp}
    (h : e = 0 ∨ e ∈ q.map Resp.err) : DriverCode e q :=
  h.elim Or.inl (fun m => Or.inr (Or.inr (Or.inr (Or.inr m))))

theorem waitCode {e : Nat} {q : List Resp}
    (h : e = 0 ∨ e = S25FL064_POLL_LIMIT ∨ e ∈ q.map Resp.err) :
    DriverCode e q := by
  rcases h with h | h | h
  · exact Or.inl h
  · exact Or.inr (Or.inr (Or.inr (Or.inl h)))
  · exact Or.inr (Or.inr (Or.inr (Or.inr h)))

theorem codeMono {e : Nat} {q q' : List Resp} (h : ∃ u, q = u ++ q')
    (hd : DriverCode e q') : DriverCode e q := by
  rcases hd with h0 | h1 | h4 | hp | hm
  · exact Or.inl h0
  · exact Or.inr (Or.inl h1)
  · exact Or.inr (Or.inr (Or.inl h4))
  · exact Or.inr (Or.inr (Or.inr (Or.inl hp)))
  · exact Or.inr (Or.inr (Or.inr (Or.inr (errMono h hm))))

theorem readLoop_code : ∀ (f n : Nat) (bus : Bus),
    DriverCode (S25FL064L_ReadLoop f n bus).1 bus.queue := by
  intro f
  induction f with
  | zero => intro n bus; exact Or.inr (Or.inr (Or.inr (Or.inl rfl)))
  | succ m ih =>
    intro n bus
    rw [S25FL064L_ReadLoop.eq_2]
    by_cases h255 : n > 255
    · simp only [if_pos h255]
      have hc := doRW_code bus [] 255
      have hq := doRW_queue bus [] 255
      split
      · exact codeOfErr hc
      · split
        · exact codeMono hq (ih (n - 255) (doRW bus [] 255).2.2)
        · exact Or.inl rfl
    · simp only [if_neg h255]
      have hc := doRW_code bus [] n
      have hq := doRW_queue bus [] n
      split
      · exact codeOfErr hc
      · split
        · exact codeMono hq (ih (n - n) (doRW bus [] n).2.2)
        · exact Or.inl rfl

set_option maxHeartbeats 1000000 in
theorem writeLoop_codeq : ∀ (itF busyF : Nat) (buf txB : List Nat)
    (rem a off : Nat) (bus : Bus),
    DriverCode (S25FL064L_WriteLoop itF busyF buf txB rem a off bus).1
      bus.queue ∧
    ∃ u, bus.queue =
      u ++ (S25FL064L_WriteLoop itF busyF buf txB rem a off bus).2.queue := by
  intro itF
  induction itF with
  | zero =>
    intro busyF buf txB rem a off bus
    exact ⟨Or.inr (Or.inr (Or.inr (Or.inl rfl))), ⟨[], rfl⟩⟩
  | succ n ih =>
    intro busyF buf txB rem a off bus
    rw [S25FL064L_WriteLoop.eq_2]
    split
    rename_i e1 rx1 bus1 heq1
    have hc1 := command_code bus ((txB.set 0 S25FL064L_CMD_WREN).take 1) 0
    have hq1 := command_queue bus ((txB.set 0 S25FL064L_CMD_WREN).take 1) 0
    rw [heq1] at hc1 hq1
    split
    · exact ⟨codeOfErr hc1, hq1⟩
    · split
      rename_i e2 rx2 bus2 heq2
      have hc2 := command_code bus1
        ((txB.set 0 S25FL064L_CMD_WREN).set 0 S25FL064L_CMD_RDSR1) 2
      have hq2 := command_queue bus1
        ((txB.set 0 S25FL064L_CMD_WREN).set 0 S25FL064L_CMD_RDSR1) 2
      rw [heq2] at hc2 hq2
      have hq2x : ∃ u, bus.queue = u ++ bus2.queue := sufTrans hq1 hq2
      split
      · exact ⟨codeMono hq1 (codeOfErr hc2), hq2x⟩
      · split
        · exact ⟨Or.inr (Or.inr (Or.inl rfl)), hq2x⟩
        · split
          rename_i e3 rx3 bus3 heq3
          have hc3 := doRW_code (doCS bus2 true) [S25FL064L_CMD_4PP,
            (a &&& 0xFF000000) >>> 0x18,
            (a &&& 0x00FF0000) >>> 0x10,
            (a &&& 0x0000FF00) >>> 0x08,
            (a &&& 0x000000FF) >>> 0x00] 0
          have hq3 := doRW_queue (doCS bus2 true) [S25FL064L_CMD_4PP,
            (a &&& 0xFF000000) >>> 0x18,
            (a &&& 0x00FF0000) >>> 0x10,
            (a &&& 0x0000FF00) >>> 0x08,
            (a &&& 0x000000FF) >>> 0x00] 0
          rw [heq3] at hc3 hq3
          rw [doCS_queue] at hc3 hq3
          have hq3x : ∃ u, bus.queue = u ++ bus3.queue := sufTrans hq2x hq3
          split
          · exact ⟨codeMono hq2x (codeOfErr hc3), hq3x⟩
          · split
            · split
              rename_i eOr busOr heqOr
              have hOr : (eOr = 0 ∨ eOr = 1) ∧
                  ∃ u, bus3.queue = u ++ busOr.queue := by
                split at heqOr
                rename_i e4 rx4 bus4 heq4
                have hq4 := doRW_queue bus3 ((buf.drop off).take 255) 0
                rw [heq4] at hq4
                split at heqOr
                · injection heqOr with hE hB
                  subst hE; subst hB
                  exact ⟨Or.inr rfl, hq4⟩
                · split at heqOr
                  rename_i e5 rx5 bus5 heq5
                  have hq5 := doRW_queue bus4 ((buf.drop (off + 255)).take 1) 0
                  rw [heq5] at hq5
                  split at heqOr
                  · injection heqOr with hE hB
                    subst hE; subst hB
                    exact ⟨Or.inr rfl, sufTrans hq4 hq5⟩
                  · injection heqOr with hE hB
                    subst hE; subst hB
                    exact ⟨Or.inl rfl, sufTrans hq4 hq5⟩
              obtain ⟨hOrE, hOrQ⟩ := hOr
              have hqOrx : ∃ u, bus.queue = u ++ busOr.queue :=
                sufTrans hq3x hOrQ
              split
              · refine ⟨?_, hqOrx⟩
                rcases hOrE with rfl | rfl
                · exact Or.inl rfl
                · exact Or.inr (Or.inl rfl)
              · split
                rename_i e6 bus6 heq6
                have hc6 := waitBusy_code busyF (doCS busOr false)
                have hq6 := waitBusy_queue busyF (doCS busOr false)
                rw [heq6] at hc6 hq6
                rw [doCS_queue] at hc6 hq6
                have hq6x : ∃ u, bus.queue = u ++ bus6.queue :=
                  sufTrans hqOrx hq6
                split
                · exact ⟨codeMono hqOrx (waitCode hc6), hq6x⟩
                · split
                  · have hrec := ih busyF buf [S25FL064L_CMD_4PP,
                      (a &&& 0xFF000000) >>> 0x18,
                      (a &&& 0x00FF0000) >>> 0x10,
                      (a &&& 0x0000FF00) >>> 0x08,
                      (a &&& 0x000000FF) >>> 0x00]
                      (rem - S25FL064L_PAGE_SIZE)
                      ((a + S25FL064L_PAGE_SIZE) % 4294967296)
                      (off + S25FL064L_PAGE_SIZE) (doCS bus6 false)
                    rw [doCS_queue] at hrec
                    exact ⟨codeMono hq6x hrec.1, sufTrans hq6x hrec.2⟩
                  · exact ⟨Or.inl rfl, hq6x⟩
            · split
              rename_i e4 rx4 bus4 heq4
              have hc4 := doRW_code bus3 ((buf.drop 0).take rem) 0
              have hq4 := doRW_queue bus3 ((buf.drop 0).take rem) 0
              rw [heq4] at hc4 hq4
              have hq4x : ∃ u, bus.queue = u ++ bus4.queue :=
                sufTrans hq3x hq4
              split
              · exact ⟨codeMono hq3x (codeOfErr hc4), hq4x⟩
              · split
                rename_i e6 bus6 heq6
                have hc6 := waitBusy_code busyF (doCS bus4 false)
                have hq6 := waitBusy_queue busyF (doCS bus4 false)
                rw [heq6] at hc6 hq6
                rw [doCS_queue] at hc6 hq6
                have hq6x : ∃ u, bus.queue = u ++ bus6.queue :=
                  sufTrans hq4x hq6
                split
                · exact ⟨codeMono hq4x (waitCode hc6), hq6x⟩
                · exact ⟨Or.inl rfl, hq6x⟩

theorem read_code (dev : Dev) (bus : Bus) (start : Nat)
    (pb : Option Unit) (len : Nat) :
    DriverCode (S25FL064L_Read dev bus start pb len).1 bus.queue := by
  cases pb with
  | none => exact Or.inr (Or.inl rfl)
  | some u =>
    simp only [S25FL064L_Read]
    have hc := doRW_code (doCS bus true)
      [S25FL064L_CMD_4READ,
       (start &&& 0xFF000000) >>> 0x18,
       (start &&& 0x00FF0000) >>> 0x10,
       (start &&& 0x0000FF00) >>> 0x08,
       (start &&& 0x000000FF) >>> 0x00] 0
    have hq := doRW_queue (doCS bus true)
      [S25FL064L_CMD_4READ,
       (start &&& 0xFF000000) >>> 0x18,
       (start &&& 0x00FF0000) >>> 0x10,
       (start &&& 0x0000FF00) >>> 0x08,
       (start &&& 0x000000FF) >>> 0x00] 0
    rw [doCS_queue] at hc hq
    split
    · exact codeOfErr hc
    · split
      · exact codeMono hq (readLoop_code (len + 1) len _)
      · exact codeMono hq (readLoop_code (len + 1) len _)

theorem write_code (busyFuel : Nat) (txInit : List Nat) (dev : Dev)
    (bus : Bus) (address : Nat) (pb : Option (List Nat)) (len : Nat) :
    DriverCode (S25FL064L_Write busyFuel txInit dev bus address pb len).1
      bus.queue := by
  cases pb with
  | none => exact Or.inr (Or.inl rfl)
  | some buf =>
    simp only [S25FL064L_Write]
    have h := writeLoop_codeq (len + 1) busyFuel buf txInit len address 0 bus
    split
    · exact h.1
    · exact codeMono h.2 (waitCode (waitBusy_code busyFuel _))

theorem eraseSector_code (busyFuel : Nat) (dev : Dev) (bus : Bus)
    (address : Nat) :
    DriverCode (S25FL064L_EraseSector busyFuel dev bus address).1
      bus.queue := by
  simp only [S25FL064L_EraseSector]
  have hc := command_code bus [S25FL064L_CMD_WREN] 0
  have hq := command_queue bus [S25FL064L_CMD_WREN] 0
  split
  · exact codeOfErr hc
  · have hc2 := doRW_code (doCS (S25FL064L_Command bus [S25FL064L_CMD_WREN] 0).2.2 true)
      [S25FL064L_CMD_SE,
       (address &&& 0xFF000000) >>> 0x18,
       (address &&& 0x00FF0000) >>> 0x10,
       (address &&& 0x0000FF00) >>> 0x08,
       (address &&& 0x000000FF) >>> 0x00] 0
    have hq2 := doRW_queue (doCS (S25FL064L_Command bus [S25FL064L_CMD_WREN] 0).2.2 true)
      [S25FL064L_CMD_SE,
       (address &&& 0xFF000000) >>> 0x18,
       (address &&& 0x00FF0000) >>> 0x10,
       (address &&& 0x0000FF00) >>> 0x08,
       (address &&& 0x000000FF) >>> 0x00] 0
    rw [doCS_queue] at hc2 hq2
    split
    · exact codeMono hq (codeOfErr hc2)
    · exact codeMono (sufTrans hq hq2)
        (waitCode (waitBusy_code busyFuel _))

theorem eraseChip_code (busyFuel : Nat) (dev : Dev) (bus : Bus) :
    DriverCode (S25FL064L_EraseChip busyFuel dev bus).1 bus.queue := by
  simp only [S25FL064L_EraseChip]
  have hc := command_code bus [S25FL064L_CMD_WREN] 0
  have hq := command_queue bus [S25FL064L_CMD_WREN] 0
  split
  · exact codeOfErr hc
  · have hc2 := command_code (S25FL064L_Command bus [S25FL064L_CMD_WREN] 0).2.2
      [S25FL064L_CMD_CE] 0
    have hq2 := command_queue (S25FL064L_Command bus [S25FL064L_CMD_WREN] 0).2.2
      [S25FL064L_CMD_CE] 0
    split
    · exact codeMono hq (codeOfErr hc2)
    · exact codeMono (sufTrans hq hq2)
        (waitCode (waitBusy_code busyFuel _))

/-- Claim C3 (amended): none of the data operations checks
`isInitialized`; in particular `NOT_INITIALIZED` can appear in the
result of Read, Write, EraseSector or EraseChip only if the transport
oracle itself returned that code — the driver never generates it. -/
theorem data_ops_never_generate_not_initialized :
    (∀ (dev : Dev) (bus : Bus) (start : Nat) (pb : Option Unit) (len : Nat),
      (S25FL064L_Read dev bus start pb len).1 = S25FL064_NOT_INITIALIZED →
      S25FL064_NOT_INITIALIZED ∈ bus.queue.map Resp.err) ∧
    (∀ (busyFuel : Nat) (txInit : List Nat) (dev : Dev) (bus : Bus)
       (address : Nat) (pb : Option (List Nat)) (len : Nat),
      (S25FL064L_Write busyFuel txInit dev bus address pb len).1 =
        S25FL064_NOT_INITIALIZED →
      S25FL064_NOT_INITIALIZED ∈ bus.queue.map Resp.err) ∧
    (∀ (busyFuel : Nat) (dev : Dev) (bus : Bus) (address : Nat),
      (S25FL064L_EraseSector busyFuel dev bus address).1 =
        S25FL064_NOT_INITIALIZED →
      S25FL064_NOT_INITIALIZED ∈ bus.queue.map Resp.err) ∧
    (∀ (busyFuel : Nat) (dev : Dev) (bus : Bus),
      (S25FL064L_EraseChip busyFuel dev bus).1 = S25FL064_NOT_INITIALIZED →
      S25FL064_NOT_INITIALIZED ∈ bus.queue.map Resp.err) := by
  refine ⟨fun dev bus start pb len h => ?_,
          fun busyFuel txInit dev bus address pb len h => ?_,
          fun busyFuel dev bus address h => ?_,
          fun busyFuel dev bus h => ?_⟩
  · have hd := read_code dev bus start pb len
    rw [h] at hd
    rcases hd with h0 | h1 | h4 | hp | hm
    · exact absurd h0 (by decide)
    · exact absurd h1 (by decide)
    · exact absurd h4 (by decide)
    · exact absurd hp (by decide)
    · exact hm
  · have hd := write_code busyFuel txInit dev bus address pb len
    rw [h] at hd
    rcases hd with h0 | h1 | h4 | hp | hm
    · exact absurd h0 (by decide)
    · exact absurd h1 (by decide)
    · exact absurd h4 (by decide)
    · exact absurd hp (by decide)
    · exact hm
  · have hd := eraseSector_code busyFuel dev bus address
    rw [h] at hd
    rcases hd with h0 | h1 | h4 | hp | hm
    · exact absurd h0 (by decide)
    · exact absurd h1 (by decide)
    · exact absurd h4 (by decide)
    · exact absurd hp (by decide)
    · exact hm
  · have hd := eraseChip_code busyFuel dev bus
    rw [h] at hd
    rcases hd with h0 | h1 | h4 | hp | hm
    · exact absurd h0 (by decide)
    · exact absurd h1 (by decide)
    · exact absurd h4 (by decide)
    · exact absurd hp (by decide)
    · exact hm

/-- Witness for C3 (amended): when the transport itself answers with
code 3, Read surfaces it, and indeed 3 is in the oracle's error list. -/
theorem data_ops_never_generate_not_initialized_witness :
    S25FL064_NOT_INITIALIZED ∈
      (Bus.queue ⟨false, [], [⟨3, []⟩]⟩).map Resp.err :=
  data_ops_never_generate_not_initialized.1 dev0 ⟨false, [], [⟨3, []⟩]⟩
    0 (some ()) 1 (by decide)

/-! ### C7 — Write parameter validation, amended -/

/-- Claim C7 (amended): the only parameter validation in `Write` is the
null check: a null buffer pointer fails with `INVALID_PARAM` immediately
and without any bus activity; address and length are not validated (the
counterexample shows address 0 and length 0 being accepted, with the
command sequence issued). -/
theorem write_null_buffer_invalid_param (busyFuel : Nat)
    (txInit : List Nat) (dev : Dev) (bus : Bus) (address length : Nat) :
    S25FL064L_Write busyFuel txInit dev bus address none length =
      (S25FL064_INVALID_PARAM, bus) := rfl
